import Mathlib

/-!
Shallow embedding of the textenger chat front-end (DirectMessageWindow.tsx
and the room chat page) and proofs about its conversation-store, composer,
room-creation and subscription-lifecycle behaviour.

Timestamps (`created_at`) are modelled as `Nat`; the remote data client's
`order by created_at ascending, limit 50` is modelled as an insertion sort
by `created_at` followed by `take 50`.
-/

namespace Textenger

/-- Row of the `direct_messages` table, as in the `DirectMessage` interface
of DirectMessageWindow.tsx. -/
structure DirectMessage where
  id : String
  content : String
  created_at : Nat
  sender_id : String
  receiver_id : String
  deriving Repr, DecidableEq

/-- Denormalized sender profile fields selected by the room message queries
(`profiles:sender_id (username, display_name, avatar_url)`). -/
structure Profile where
  id : String
  username : String
  display_name : Option String
  avatar_url : Option String
  deriving Repr, DecidableEq

/-- Row of the `room_messages` table. -/
structure RoomMessageRow where
  id : String
  room_id : String
  sender_id : String
  content : String
  created_at : Nat
  deriving Repr, DecidableEq

/-- Hydrated room message as held in the page state (`RoomMessage` interface):
the row columns selected by the query plus the joined sender profile. The join
target can be absent, hence `Option Profile` (the view uses `message.profiles?`). -/
structure RoomMessage where
  id : String
  content : String
  created_at : Nat
  sender_id : String
  profiles : Option Profile
  deriving Repr, DecidableEq

/-- Generic insertion of an element into a list sorted non-decreasingly by the
key `f`; used to model the remote client's `order by created_at ascending`. -/
def insertByKey (f : α → Nat) (m : α) : List α → List α
  | [] => [m]
  | x :: xs => if f m ≤ f x then m :: x :: xs else x :: insertByKey f m xs

/-- Sort a list non-decreasingly by the key `f` (insertion sort). -/
def sortByKey (f : α → Nat) : List α → List α
  | [] => []
  | x :: xs => insertByKey f x (sortByKey f xs)

/-- Decidable check that a list is non-decreasing in the key `f`. -/
def isSortedByKey (f : α → Nat) : List α → Bool
  | [] => true
  | [_] => true
  | x :: y :: xs => f x ≤ f y && isSortedByKey f (y :: xs)

theorem isSortedByKey_cons {f : α → Nat} {x y : α} {xs : List α} :
    isSortedByKey f (x :: y :: xs) = (decide (f x ≤ f y) && isSortedByKey f (y :: xs)) := rfl

theorem isSortedByKey_insertByKey (f : α → Nat) (m : α) (l : List α)
    (h : isSortedByKey f l = true) : isSortedByKey f (insertByKey f m l) = true := by
  induction l with
  | nil => simp [insertByKey, isSortedByKey]
  | cons x xs ih =>
    simp only [insertByKey]
    by_cases hmx : f m ≤ f x
    · simp only [if_pos hmx]
      rw [isSortedByKey_cons]
      simp [hmx, h]
    · simp only [if_neg hmx]
      push_neg at hmx
      cases xs with
      | nil =>
        simp [insertByKey, isSortedByKey, Nat.le_of_lt hmx]
      | cons y ys =>
        rw [isSortedByKey_cons] at h
        simp only [Bool.and_eq_true, decide_eq_true_eq] at h
        obtain ⟨hxy, hrest⟩ := h
        have ih2 := ih hrest
        simp only [insertByKey] at ih2 ⊢
        by_cases hmy : f m ≤ f y
        · simp only [if_pos hmy] at ih2 ⊢
          rw [isSortedByKey_cons]
          simp [Nat.le_of_lt hmx, ih2]
        · simp only [if_neg hmy] at ih2 ⊢
          rw [isSortedByKey_cons]
          simp [hxy, ih2]

theorem isSortedByKey_sortByKey (f : α → Nat) (l : List α) :
    isSortedByKey f (sortByKey f l) = true := by
  induction l with
  | nil => rfl
  | cons x xs ih => exact isSortedByKey_insertByKey f x _ ih

theorem isSortedByKey_take (f : α → Nat) (n : Nat) (l : List α)
    (h : isSortedByKey f l = true) : isSortedByKey f (l.take n) = true := by
  induction l generalizing n with
  | nil => simp [isSortedByKey]
  | cons x xs ih =>
    cases n with
    | zero => rfl
    | succ n =>
      cases xs with
      | nil => cases n <;> simp [isSortedByKey]
      | cons y ys =>
        rw [isSortedByKey_cons] at h
        simp only [Bool.and_eq_true, decide_eq_true_eq] at h
        obtain ⟨hxy, hrest⟩ := h
        cases n with
        | zero => simp [isSortedByKey]
        | succ n =>
          have := ih (n + 1) hrest
          simp only [List.take_succ_cons] at this ⊢
          rw [isSortedByKey_cons]
          simp [hxy, this]

theorem isSortedByKey_append_last (f : α → Nat) (l : List α) (p : α)
    (h : isSortedByKey f l = true) (hb : ∀ m ∈ l, f m ≤ f p) :
    isSortedByKey f (l ++ [p]) = true := by
  induction l with
  | nil => simp [isSortedByKey]
  | cons x xs ih =>
    cases xs with
    | nil =>
      simp only [List.cons_append, List.nil_append]
      rw [isSortedByKey_cons]
      simp [hb x (by simp), isSortedByKey]
    | cons y ys =>
      rw [isSortedByKey_cons] at h
      simp only [Bool.and_eq_true, decide_eq_true_eq] at h
      obtain ⟨hxy, hrest⟩ := h
      have := ih hrest (fun m hm => hb m (by simp [hm]))
      simp only [List.cons_append] at this ⊢
      rw [isSortedByKey_cons]
      simp [hxy, this]

theorem mem_insertByKey (f : α → Nat) (m : α) (l : List α) (x : α) :
    x ∈ insertByKey f m l ↔ x = m ∨ x ∈ l := by
  induction l with
  | nil => simp [insertByKey]
  | cons y ys ih =>
    simp only [insertByKey]
    by_cases h : f m ≤ f y
    · simp [if_pos h]
    · simp only [if_neg h, List.mem_cons, ih]
      tauto

theorem mem_sortByKey (f : α → Nat) (l : List α) (x : α) :
    x ∈ sortByKey f l ↔ x ∈ l := by
  induction l with
  | nil => simp [sortByKey]
  | cons y ys ih =>
    simp only [sortByKey, mem_insertByKey, List.mem_cons, ih]

theorem length_sortByKey (f : α → Nat) (l : List α) :
    (sortByKey f l).length = l.length := by
  induction l with
  | nil => rfl
  | cons y ys ih =>
    have hlen : ∀ (m : α) (t : List α), (insertByKey f m t).length = t.length + 1 := by
      intro m t
      induction t with
      | nil => rfl
      | cons z zs ih2 =>
        simp only [insertByKey]
        by_cases h : f m ≤ f z
        · simp [if_pos h]
        · simp [if_neg h, ih2]
    simp [sortByKey, hlen, ih]

theorem isSortedByKey_map (f : β → Nat) (g : α → β) (f2 : α → Nat)
    (hg : ∀ a, f (g a) = f2 a) (l : List α) :
    isSortedByKey f (l.map g) = isSortedByKey f2 l := by
  induction l with
  | nil => rfl
  | cons x xs ih =>
    cases xs with
    | nil => rfl
    | cons y ys =>
      have hmap : (x :: y :: ys).map g = g x :: g y :: ys.map g := rfl
      rw [hmap, isSortedByKey_cons, isSortedByKey_cons, hg, hg]
      have h2 : (g y :: ys.map g) = (y :: ys).map g := rfl
      rw [h2, ih]

/-- Error surface of the remote data client (error codes the source maps:
PGRST116 permission denied, PGRST301 auth required, plus generic failure). -/
inductive RemoteError where
  | permissionDenied
  | authRequired
  | notFound
  | remoteUnavailable
  deriving Repr, DecidableEq

/-- Matching predicate of the direct conversation, as in the subscription
handler of DirectMessageWindow.tsx:
`(newMsg.sender_id === user?.id && newMsg.receiver_id === otherUserId) ||
 (newMsg.sender_id === otherUserId && newMsg.receiver_id === user?.id)`. -/
def dmMatches (selfId otherUserId : String) (m : DirectMessage) : Bool :=
  (m.sender_id == selfId && m.receiver_id == otherUserId) ||
  (m.sender_id == otherUserId && m.receiver_id == selfId)

/-- Result of the `loadMessages` select in DirectMessageWindow.tsx: rows of
`direct_messages` matching the or-filter on the (self, other) pair, ordered
by `created_at` ascending, limited to 50. -/
def dmLoadQuery (db : List DirectMessage) (selfId otherUserId : String) :
    List DirectMessage :=
  (sortByKey (fun m => m.created_at) (db.filter (dmMatches selfId otherUserId))).take 50

/-- Component state of DirectMessageWindow relevant to the conversation store:
the ordered message list, the loading flag, and whether an error toast has
been shown. -/
structure DMState where
  messages : List DirectMessage
  loading : Bool
  errorToast : Bool
  deriving Repr, DecidableEq

/-- State update performed by `loadMessages` in DirectMessageWindow.tsx once
the select resolves: on success `setMessages(data || [])`; on error a toast is
shown and `messages` is not written; `setLoading(false)` in both cases. -/
def dmApplyLoad (st : DMState) (res : Except RemoteError (List DirectMessage)) :
    DMState :=
  match res with
  | .ok data => { st with messages := data, loading := false }
  | .error _ => { st with errorToast := true, loading := false }

/-- Run of `loadMessages` against a database `db`; `failure` injects the
client-error outcome of the select (none = success). -/
def dmRunLoad (db : List DirectMessage) (selfId otherUserId : String)
    (failure : Option RemoteError) (st : DMState) : DMState :=
  dmApplyLoad st
    (match failure with
     | none => .ok (dmLoadQuery db selfId otherUserId)
     | some e => .error e)

/-- Handler of the `direct-messages` realtime channel in
DirectMessageWindow.tsx: the raw `payload.new` row is appended to the message
list iff it matches the conversation predicate; no re-fetch and no duplicate
check is performed. -/
def dmOnInsert (selfId otherUserId : String) (msgs : List DirectMessage)
    (payloadNew : DirectMessage) : List DirectMessage :=
  if dmMatches selfId otherUserId payloadNew then msgs ++ [payloadNew] else msgs

/-- Re-fetch of a single `direct_messages` row by id (`.eq('id', …).single()`);
no such query exists in the direct-message source, the definition only serves
to compare the handler against the behaviour the specification asks for. -/
def dmRefetchById (db : List DirectMessage) (msgId : String) :
    Option DirectMessage :=
  (db.filter (fun r => r.id == msgId)).head?

/-- Lookup of the joined sender profile (`profiles:sender_id ( … )`). -/
def profileLookup (profilesTable : List Profile) (senderId : String) :
    Option Profile :=
  (profilesTable.filter (fun p => p.id == senderId)).head?

/-- Hydration of a `room_messages` row into the shape selected by the room
queries: the row columns plus the joined sender profile. -/
def hydrateRoomMessage (profilesTable : List Profile) (row : RoomMessageRow) :
    RoomMessage :=
  { id := row.id
    content := row.content
    created_at := row.created_at
    sender_id := row.sender_id
    profiles := profileLookup profilesTable row.sender_id }

/-- Result of the `loadMessages(roomId)` select of the room chat page: rows of
`room_messages` with `room_id = roomId`, joined with the sender profile,
ordered by `created_at` ascending, limited to 50. -/
def roomLoadQuery (db : List RoomMessageRow) (profilesTable : List Profile)
    (roomId : String) : List RoomMessage :=
  ((sortByKey (fun m => m.created_at)
      (db.filter (fun r => r.room_id == roomId))).take 50).map
    (hydrateRoomMessage profilesTable)

/-- Re-fetch performed inside the room realtime handler: the single
`room_messages` row with the given id (`.eq('id', payload.new.id).single()`),
hydrated with the sender profile. -/
def roomRefetchById (db : List RoomMessageRow) (profilesTable : List Profile)
    (msgId : String) : Option RoomMessage :=
  ((db.filter (fun r => r.id == msgId)).head?).map (hydrateRoomMessage profilesTable)

/-- Room chat page state relevant to the conversation store. -/
structure RoomChatState where
  messages : List RoomMessage
  errorToast : Bool
  deriving Repr, DecidableEq

/-- Handler of the `room-messages` realtime channel: the server-side filter is
`room_id=eq.roomId`, so the handler receives only matching rows; it re-fetches
the full row by `payload.new.id` and appends the hydrated result, doing
nothing at all (`if (data)` with no else branch, no toast) when the re-fetch
yields no data. No duplicate check is performed. -/
def roomOnInsert (db : List RoomMessageRow) (profilesTable : List Profile)
    (st : RoomChatState) (payloadNewId : String) : RoomChatState :=
  match roomRefetchById db profilesTable payloadNewId with
  | some data => { st with messages := st.messages ++ [data] }
  | none => st

/-- State update of the room `loadMessages` once the select resolves. -/
def roomApplyLoad (st : RoomChatState) (res : Except RemoteError (List RoomMessage)) :
    RoomChatState :=
  match res with
  | .ok data => { st with messages := data }
  | .error _ => { st with errorToast := true }

/-- Run of the room `loadMessages(roomId)` against database `db`. -/
def roomRunLoad (db : List RoomMessageRow) (profilesTable : List Profile)
    (roomId : String) (failure : Option RemoteError) (st : RoomChatState) :
    RoomChatState :=
  roomApplyLoad st
    (match failure with
     | none => .ok (roomLoadQuery db profilesTable roomId)
     | some e => .error e)

/-- Model of the JavaScript `String.prototype.trim()` used by the composers
and by room creation: leading and trailing whitespace characters removed. -/
def jsTrim (s : String) : String :=
  ⟨(((s.data.dropWhile Char.isWhitespace).reverse).dropWhile Char.isWhitespace).reverse⟩

/-- Composer state shared by both message windows: the controlled input value
(`newMessage`), the in-flight flag (`sending`) and whether an error toast has
been shown. -/
structure ComposerState where
  newMessage : String
  sending : Bool
  errorToast : Bool
  deriving Repr, DecidableEq

/-- Row handed to `supabase.from('room_messages').insert(…)` by the room
`sendMessage`. -/
structure RoomMessageInsert where
  room_id : String
  sender_id : String
  content : String
  deriving Repr, DecidableEq

/-- Row handed to `supabase.from('direct_messages').insert(…)` by the direct
`sendMessage`. -/
structure DirectMessageInsert where
  sender_id : String
  receiver_id : String
  content : String
  deriving Repr, DecidableEq

/-- Entry of the room `sendMessage` up to the point where the insert is
issued: the guard `if (!user || !selectedRoom || !newMessage.trim()) return`
makes it a no-op (no insert issued, state untouched); otherwise
`setSending(true)` and the insert row `{room_id, sender_id, content: trimmed}`
is issued. -/
def roomSendStart (user selectedRoom : Option String) (st : ComposerState) :
    ComposerState × Option RoomMessageInsert :=
  match user, selectedRoom with
  | some u, some r =>
    if jsTrim st.newMessage == "" then (st, none)
    else ({ st with sending := true },
          some { room_id := r, sender_id := u, content := jsTrim st.newMessage })
  | _, _ => (st, none)

/-- Entry of the direct `sendMessage`: guard `if (!user || !newMessage.trim())
return`; the receiver is the `otherUserId` prop. -/
def dmSendStart (user : Option String) (otherUserId : String) (st : ComposerState) :
    ComposerState × Option DirectMessageInsert :=
  match user with
  | some u =>
    if jsTrim st.newMessage == "" then (st, none)
    else ({ st with sending := true },
          some { sender_id := u, receiver_id := otherUserId,
                 content := jsTrim st.newMessage })
  | none => (st, none)

/-- Resolution of an issued insert (identical in both composers): on success
`setNewMessage("")`; on error a toast is shown and the input is not written;
`setSending(false)` in the finally block either way. -/
def sendResolve (st : ComposerState) (failed : Bool) : ComposerState :=
  if failed then { st with errorToast := true, sending := false }
  else { st with newMessage := "", sending := false }

/-- Send attempt as dispatchable from the room page UI: the input has
`disabled={sending}` (so the Enter-key path cannot fire) and the send button
has `disabled={!newMessage.trim() || sending}` (so the click path cannot
fire); while `sending` is set no path reaches `sendMessage`. -/
def roomAttemptSend (user selectedRoom : Option String) (st : ComposerState) :
    ComposerState × Option RoomMessageInsert :=
  if st.sending then (st, none) else roomSendStart user selectedRoom st

/-- Send attempt as dispatchable from the direct-message window UI; same
`disabled` gating as the room composer. -/
def dmAttemptSend (user : Option String) (otherUserId : String)
    (st : ComposerState) : ComposerState × Option DirectMessageInsert :=
  if st.sending then (st, none) else dmSendStart user otherUserId st

/-- Book-keeping of realtime channels opened against the client: a fresh id
counter and the list of ids not yet passed to `removeChannel`. -/
structure ChannelBook where
  nextId : Nat
  active : List Nat
  deriving Repr, DecidableEq

/-- Model of `supabase.channel(…).on(…).subscribe()`: opens a fresh channel. -/
def subscribeChannel (book : ChannelBook) : ChannelBook × Nat :=
  ({ nextId := book.nextId + 1, active := book.active ++ [book.nextId] },
   book.nextId)

/-- Model of `supabase.removeChannel(channel)`. -/
def removeChannel (book : ChannelBook) (c : Nat) : ChannelBook :=
  { book with active := book.active.filter (fun x => x ≠ c) }

/-- Activation of the DirectMessageWindow effect for one value of
`[otherUserId, user]`: React first runs the cleanup returned by the previous
activation (`return () => { unsubscribe(); }`, which calls `removeChannel`),
then the effect body subscribes a new channel. The second component tracks
the channel owned by the current activation. -/
def dmEffectActivate (s : ChannelBook × Option Nat) : ChannelBook × Option Nat :=
  let book1 := match s.2 with
    | some c => removeChannel s.1 c
    | none => s.1
  let sub := subscribeChannel book1
  (sub.1, some sub.2)

/-- Activation of the room chat page effect for one value of `[selectedRoom]`:
the effect body calls `subscribeToMessages(selectedRoom.id)` but discards its
returned unsubscribe closure and returns no cleanup, so switching rooms never
removes the previous channel. -/
def roomEffectActivate (book : ChannelBook) : ChannelBook :=
  (subscribeChannel book).1

/-- Row of the `rooms` table. -/
structure Room where
  id : String
  name : String
  description : String
  owner_id : String
  created_at : Nat
  deriving Repr, DecidableEq

/-- Row of the `room_members` table. -/
structure RoomMember where
  room_id : String
  user_id : String
  role : String
  deriving Repr, DecidableEq

/-- Tables touched by room creation. -/
structure RoomsDb where
  rooms : List Room
  room_members : List RoomMember
  deriving Repr, DecidableEq

/-- Outcome of `createRoom` as observable from the UI: guard no-op, error
toast (room insert failed), or success toast; on success the flag records
whether the best-effort membership insert failed (logged only). -/
inductive CreateRoomOutcome where
  | noop
  | failure (e : RemoteError)
  | success (memberInsertFailed : Bool)
  deriving Repr, DecidableEq

/-- Model of `createRoom` of the room chat page: guard
`if (!user || !newRoom.name.trim()) return`; insert of the room row (the
server assigns `assignedId` and `assignedTime`); on insert error the catch
block shows an error toast and nothing was written; on success the membership
row `{room_id, user_id, role: 'owner'}` is inserted, and if that insert fails
the error is only logged — the flow still resets the dialog, reloads the room
list and shows the success toast. -/
def createRoom (db : RoomsDb) (user : Option String)
    (nameField descField : String) (assignedId : String) (assignedTime : Nat)
    (roomInsertError memberInsertError : Option RemoteError) :
    RoomsDb × CreateRoomOutcome :=
  match user with
  | none => (db, .noop)
  | some u =>
    if jsTrim nameField == "" then (db, .noop)
    else
      match roomInsertError with
      | some e => (db, .failure e)
      | none =>
        let room : Room :=
          { id := assignedId, name := nameField, description := descField,
            owner_id := u, created_at := assignedTime }
        let db1 : RoomsDb := { db with rooms := db.rooms ++ [room] }
        match memberInsertError with
        | some _ => (db1, .success true)
        | none =>
          ({ db1 with room_members := db1.room_members ++
              [{ room_id := assignedId, user_id := u, role := "owner" }] },
           .success false)

/-- Result of the `loadRooms` select: all rows of `rooms` ordered by
`created_at` ascending (no limit). -/
def loadRoomsQuery (db : RoomsDb) : List Room :=
  sortByKey (fun r => r.created_at) db.rooms

/-- C1 counterexample: appending a direct message whose id ("5") is already
present in the store is not a no-op — the handler appends it again, so the id
occurs twice afterwards. -/
theorem c1_duplicate_id_appended :
    dmOnInsert "a" "b" [⟨"5", "hi", 1, "a", "b"⟩] ⟨"5", "hi", 1, "a", "b"⟩
      = [⟨"5", "hi", 1, "a", "b"⟩, ⟨"5", "hi", 1, "a", "b"⟩] ∧
    ((dmOnInsert "a" "b" [⟨"5", "hi", 1, "a", "b"⟩] ⟨"5", "hi", 1, "a", "b"⟩).filter
        (fun m => m.id == "5")).length = 2 := by
  decide

/-- C1 amended: the append is unconditional. A direct live event whose row
matches the conversation predicate, and a room live event whose re-fetch
returns a row, are appended to the sequence regardless of whether the id is
already present, so duplicate delivery duplicates the entry. -/
theorem c1_append_unconditional
    (selfId otherUserId : String) (msgs : List DirectMessage) (p : DirectMessage)
    (hmatch : dmMatches selfId otherUserId p = true)
    (db : List RoomMessageRow) (pt : List Profile) (st : RoomChatState)
    (pid : String) (m : RoomMessage)
    (hfetch : roomRefetchById db pt pid = some m) :
    dmOnInsert selfId otherUserId msgs p = msgs ++ [p] ∧
    (roomOnInsert db pt st pid).messages = st.messages ++ [m] := by
  constructor
  · simp [dmOnInsert, hmatch]
  · simp [roomOnInsert, hfetch]

/-- C1 witness: concrete instance of the amended statement, with the direct
payload sharing the id of the message already stored. -/
theorem c1_append_unconditional_witness :
    dmMatches "a" "b" ⟨"5", "hi", 1, "a", "b"⟩ = true ∧
    roomRefetchById [⟨"7", "r1", "a", "yo", 2⟩] [] "7"
      = some (hydrateRoomMessage [] ⟨"7", "r1", "a", "yo", 2⟩) ∧
    (dmOnInsert "a" "b" [⟨"5", "hi", 1, "a", "b"⟩] ⟨"5", "hi", 1, "a", "b"⟩
        = [⟨"5", "hi", 1, "a", "b"⟩] ++ [⟨"5", "hi", 1, "a", "b"⟩] ∧
      (roomOnInsert [⟨"7", "r1", "a", "yo", 2⟩] [] ⟨[], false⟩ "7").messages
        = ([] : List RoomMessage) ++ [hydrateRoomMessage [] ⟨"7", "r1", "a", "yo", 2⟩]) :=
  ⟨by decide, by rfl,
   c1_append_unconditional "a" "b" _ _ (by decide) _ _ _ _ _ (by rfl)⟩

/-- C2 counterexample: after a load that returns one message with
`created_at = 5`, a live event carrying `created_at = 3` is appended at the
end, so the sequence is no longer non-decreasing in `created_at`. -/
theorem c2_live_append_breaks_created_at_order :
    (dmRunLoad [⟨"1", "first", 5, "a", "b"⟩] "a" "b" none ⟨[], true, false⟩).messages
      = [⟨"1", "first", 5, "a", "b"⟩] ∧
    isSortedByKey (fun m => m.created_at)
      (dmOnInsert "a" "b"
        (dmRunLoad [⟨"1", "first", 5, "a", "b"⟩] "a" "b" none ⟨[], true, false⟩).messages
        ⟨"2", "late", 3, "a", "b"⟩) = false := by
  decide

/-- C2 amended: the sequence is non-decreasing by `created_at` after load
(direct and room), and a live-event append — direct handler append of a
matching payload, or room handler append of a successfully re-fetched row —
preserves the ordering only under the extra assumption that the appended
message's `created_at` is at least that of every message already stored. -/
theorem c2_sorted_after_load_and_bounded_appends
    (db : List DirectMessage) (selfId otherUserId : String)
    (rdb : List RoomMessageRow) (pt : List Profile) (roomId : String)
    (msgs : List DirectMessage) (p : DirectMessage)
    (hs : isSortedByKey (fun m => m.created_at) msgs = true)
    (hb : ∀ m ∈ msgs, m.created_at ≤ p.created_at)
    (rst : RoomChatState) (pid : String) (mr : RoomMessage)
    (hfetch : roomRefetchById rdb pt pid = some mr)
    (hrs : isSortedByKey (fun m => m.created_at) rst.messages = true)
    (hrb : ∀ x ∈ rst.messages, x.created_at ≤ mr.created_at) :
    isSortedByKey (fun m => m.created_at) (dmLoadQuery db selfId otherUserId) = true ∧
    isSortedByKey (fun m => m.created_at) (roomLoadQuery rdb pt roomId) = true ∧
    isSortedByKey (fun m => m.created_at) (dmOnInsert selfId otherUserId msgs p) = true ∧
    isSortedByKey (fun m => m.created_at) (roomOnInsert rdb pt rst pid).messages = true := by
  refine ⟨?_, ?_, ?_, ?_⟩
  · exact isSortedByKey_take _ _ _ (isSortedByKey_sortByKey _ _)
  · unfold roomLoadQuery
    rw [isSortedByKey_map (fun m => m.created_at) (hydrateRoomMessage pt)
      (fun r => r.created_at) (fun a => rfl)]
    exact isSortedByKey_take _ _ _ (isSortedByKey_sortByKey _ _)
  · unfold dmOnInsert
    by_cases h : dmMatches selfId otherUserId p = true
    · simp only [h, if_true]
      exact isSortedByKey_append_last _ _ _ hs hb
    · simp only [h, if_false]
      exact hs
  · have heq : (roomOnInsert rdb pt rst pid).messages = rst.messages ++ [mr] := by
      simp [roomOnInsert, hfetch]
    rw [heq]
    exact isSortedByKey_append_last _ _ _ hrs hrb

/-- C2 witness: concrete instance of the amended statement, with a room store
already holding a message with `created_at = 1` and a re-fetched live row with
`created_at = 2`. -/
theorem c2_sorted_witness :
    isSortedByKey (fun m => m.created_at) [(⟨"1", "x", 1, "a", "b"⟩ : DirectMessage)] = true ∧
    (∀ m ∈ [(⟨"1", "x", 1, "a", "b"⟩ : DirectMessage)],
      m.created_at ≤ (⟨"2", "y", 2, "a", "b"⟩ : DirectMessage).created_at) ∧
    roomRefetchById [⟨"7", "r1", "s1", "yo", 2⟩] [] "7"
      = some (hydrateRoomMessage [] ⟨"7", "r1", "s1", "yo", 2⟩) ∧
    isSortedByKey (fun m => m.created_at)
      (⟨[⟨"6", "old", 1, "s1", none⟩], false⟩ : RoomChatState).messages = true ∧
    (∀ x ∈ (⟨[⟨"6", "old", 1, "s1", none⟩], false⟩ : RoomChatState).messages,
      x.created_at ≤ (hydrateRoomMessage [] ⟨"7", "r1", "s1", "yo", 2⟩).created_at) ∧
    (isSortedByKey (fun m => m.created_at) (dmLoadQuery [] "a" "b") = true ∧
     isSortedByKey (fun m => m.created_at)
       (roomLoadQuery [⟨"7", "r1", "s1", "yo", 2⟩] [] "r1") = true ∧
     isSortedByKey (fun m => m.created_at)
       (dmOnInsert "a" "b" [⟨"1", "x", 1, "a", "b"⟩] ⟨"2", "y", 2, "a", "b"⟩) = true ∧
     isSortedByKey (fun m => m.created_at)
       (roomOnInsert [⟨"7", "r1", "s1", "yo", 2⟩] []
         ⟨[⟨"6", "old", 1, "s1", none⟩], false⟩ "7").messages = true) :=
  ⟨by decide, by decide, by decide, by decide, by decide,
   c2_sorted_after_load_and_bounded_appends [] "a" "b" [⟨"7", "r1", "s1", "yo", 2⟩] [] "r1"
     _ _ (by decide) (by decide) ⟨[⟨"6", "old", 1, "s1", none⟩], false⟩ "7"
     (hydrateRoomMessage [] ⟨"7", "r1", "s1", "yo", 2⟩) (by decide) (by decide) (by decide)⟩

/-- C3: the room chat page effect, activated once per selected room, discards
the unsubscribe closure returned by `subscribeToMessages` and returns no
cleanup, so after selecting a room and then switching to another, both
`room-messages` channels are still active — while the DirectMessageWindow
effect, which wires the closure as the effect cleanup, keeps exactly one
channel active. -/
theorem c3_room_switch_leaks_channels :
    (roomEffectActivate (roomEffectActivate ⟨0, []⟩)).active = [0, 1] ∧
    (dmEffectActivate (dmEffectActivate (⟨0, []⟩, none))).1.active.length = 1 := by
  decide

/-- C4 counterexample: the direct-message handler performs no re-fetch — it
appends the raw `payload.new` even when the database holds no row with that
id at all, so no by-id re-fetch could have produced the delivered message. -/
theorem c4_direct_handler_appends_raw_payload :
    dmRefetchById ([] : List DirectMessage) "9" = none ∧
    dmOnInsert "a" "b" [] ⟨"9", "raw", 4, "a", "b"⟩ = [⟨"9", "raw", 4, "a", "b"⟩] := by
  decide

/-- C4 amended: only the room store re-fetches the inserted row by id and
appends the hydrated message carrying the joined sender profile; the direct
store appends the raw event payload without re-fetching (its message shape
has no joined fields). -/
theorem c4_room_refetches_direct_appends_raw
    (db : List RoomMessageRow) (pt : List Profile) (st : RoomChatState)
    (pid : String) (row : RoomMessageRow)
    (hrow : (db.filter (fun r => r.id == pid)).head? = some row)
    (selfId otherUserId : String) (msgs : List DirectMessage) (p : DirectMessage)
    (hmatch : dmMatches selfId otherUserId p = true) :
    (roomOnInsert db pt st pid).messages = st.messages ++ [hydrateRoomMessage pt row] ∧
    (hydrateRoomMessage pt row).profiles = profileLookup pt row.sender_id ∧
    dmOnInsert selfId otherUserId msgs p = msgs ++ [p] := by
  refine ⟨?_, rfl, ?_⟩
  · simp [roomOnInsert, roomRefetchById, hrow]
  · simp [dmOnInsert, hmatch]

/-- C4 witness: concrete instance of the amended statement. -/
theorem c4_room_refetches_witness :
    (([⟨"7", "r1", "s1", "yo", 2⟩] : List RoomMessageRow).filter
        (fun r => r.id == "7")).head? = some ⟨"7", "r1", "s1", "yo", 2⟩ ∧
    dmMatches "a" "b" ⟨"9", "raw", 4, "a", "b"⟩ = true ∧
    ((roomOnInsert [⟨"7", "r1", "s1", "yo", 2⟩]
        [⟨"s1", "alice", none, none⟩] ⟨[], false⟩ "7").messages
      = ([] : List RoomMessage)
        ++ [hydrateRoomMessage [⟨"s1", "alice", none, none⟩] ⟨"7", "r1", "s1", "yo", 2⟩] ∧
     (hydrateRoomMessage [⟨"s1", "alice", none, none⟩] ⟨"7", "r1", "s1", "yo", 2⟩).profiles
      = profileLookup [⟨"s1", "alice", none, none⟩] "s1" ∧
     dmOnInsert "a" "b" [] ⟨"9", "raw", 4, "a", "b"⟩ = [] ++ [⟨"9", "raw", 4, "a", "b"⟩]) :=
  ⟨by decide, by decide,
   c4_room_refetches_direct_appends_raw _ _ _ _ _ (by decide) "a" "b" _ _ (by decide)⟩

/-- C5 counterexample: when the load select fails, the store is left
unchanged, not empty — a store already holding a message keeps it, while the
claim says the failure leaves the store empty. -/
theorem c5_failed_load_leaves_nonempty_store :
    (dmRunLoad [] "a" "b" (some .remoteUnavailable)
        ⟨[⟨"1", "old", 1, "a", "b"⟩], false, false⟩).messages
      = [⟨"1", "old", 1, "a", "b"⟩] ∧
    (dmRunLoad [] "a" "b" (some .remoteUnavailable)
        ⟨[⟨"1", "old", 1, "a", "b"⟩], false, false⟩).errorToast = true := by
  decide

/-- C5 amended: for both conversation stores, a successful load replaces the
store with at most 50 messages matching the conversation key, ordered
ascending by `created_at`; a failed load surfaces the error (toast) and
leaves the message sequence unchanged — hence empty exactly when the failing
load was the initial one (store still empty). -/
theorem c5_load_bounds_order_and_error_behaviour
    (db : List DirectMessage) (selfId otherUserId : String) (st : DMState)
    (e : RemoteError) (m : DirectMessage)
    (hm : m ∈ dmLoadQuery db selfId otherUserId)
    (rdb : List RoomMessageRow) (pt : List Profile) (roomId : String)
    (rst : RoomChatState) :
    (dmRunLoad db selfId otherUserId none st).messages = dmLoadQuery db selfId otherUserId ∧
    (dmLoadQuery db selfId otherUserId).length ≤ 50 ∧
    isSortedByKey (fun x => x.created_at) (dmLoadQuery db selfId otherUserId) = true ∧
    dmMatches selfId otherUserId m = true ∧
    (dmRunLoad db selfId otherUserId (some e) st).messages = st.messages ∧
    (dmRunLoad db selfId otherUserId (some e) st).errorToast = true ∧
    (st.messages = [] → (dmRunLoad db selfId otherUserId (some e) st).messages = []) ∧
    (roomRunLoad rdb pt roomId none rst).messages = roomLoadQuery rdb pt roomId ∧
    (roomLoadQuery rdb pt roomId).length ≤ 50 ∧
    isSortedByKey (fun x => x.created_at) (roomLoadQuery rdb pt roomId) = true ∧
    (∀ mr ∈ roomLoadQuery rdb pt roomId,
      ∃ row, row ∈ rdb ∧ row.room_id = roomId ∧ mr = hydrateRoomMessage pt row) ∧
    (roomRunLoad rdb pt roomId (some e) rst).messages = rst.messages ∧
    (roomRunLoad rdb pt roomId (some e) rst).errorToast = true ∧
    (rst.messages = [] → (roomRunLoad rdb pt roomId (some e) rst).messages = []) := by
  refine ⟨rfl, ?_, ?_, ?_, rfl, rfl, ?_, rfl, ?_, ?_, ?_, rfl, rfl, ?_⟩
  · unfold dmLoadQuery
    have := List.length_take 50 (sortByKey (fun m => m.created_at)
      (db.filter (dmMatches selfId otherUserId)))
    omega
  · exact isSortedByKey_take _ _ _ (isSortedByKey_sortByKey _ _)
  · unfold dmLoadQuery at hm
    have hm2 := List.take_subset _ _ hm
    rw [mem_sortByKey] at hm2
    exact (List.mem_filter.mp hm2).2
  · intro h
    simpa [dmRunLoad, dmApplyLoad] using h
  · unfold roomLoadQuery
    rw [List.length_map]
    have := List.length_take 50 (sortByKey (fun r => r.created_at)
      (rdb.filter (fun r => r.room_id == roomId)))
    omega
  · unfold roomLoadQuery
    rw [isSortedByKey_map (fun m => m.created_at) (hydrateRoomMessage pt)
      (fun r => r.created_at) (fun a => rfl)]
    exact isSortedByKey_take _ _ _ (isSortedByKey_sortByKey _ _)
  · intro mr hmr
    unfold roomLoadQuery at hmr
    obtain ⟨row, hrow, hEq⟩ := List.mem_map.mp hmr
    have hrow2 := List.take_subset _ _ hrow
    rw [mem_sortByKey] at hrow2
    have hsplit := List.mem_filter.mp hrow2
    exact ⟨row, hsplit.1, eq_of_beq hsplit.2, hEq.symm⟩
  · intro h
    simpa [roomRunLoad, roomApplyLoad] using h

/-- C5 witness: concrete instance of the amended statement for both stores. -/
theorem c5_load_witness :
    (⟨"1", "hi", 1, "a", "b"⟩ : DirectMessage) ∈ dmLoadQuery [⟨"1", "hi", 1, "a", "b"⟩] "a" "b" ∧
    ((dmRunLoad [⟨"1", "hi", 1, "a", "b"⟩] "a" "b" none ⟨[], true, false⟩).messages
        = dmLoadQuery [⟨"1", "hi", 1, "a", "b"⟩] "a" "b" ∧
      (dmLoadQuery [⟨"1", "hi", 1, "a", "b"⟩] "a" "b").length ≤ 50 ∧
      isSortedByKey (fun x => x.created_at)
        (dmLoadQuery [⟨"1", "hi", 1, "a", "b"⟩] "a" "b") = true ∧
      dmMatches "a" "b" ⟨"1", "hi", 1, "a", "b"⟩ = true ∧
      (dmRunLoad [⟨"1", "hi", 1, "a", "b"⟩] "a" "b" (some .remoteUnavailable)
          ⟨[], true, false⟩).messages = (⟨[], true, false⟩ : DMState).messages ∧
      (dmRunLoad [⟨"1", "hi", 1, "a", "b"⟩] "a" "b" (some .remoteUnavailable)
          ⟨[], true, false⟩).errorToast = true ∧
      ((⟨[], true, false⟩ : DMState).messages = [] →
        (dmRunLoad [⟨"1", "hi", 1, "a", "b"⟩] "a" "b" (some .remoteUnavailable)
          ⟨[], true, false⟩).messages = []) ∧
      (roomRunLoad [⟨"7", "r1", "s1", "yo", 2⟩] [] "r1" none ⟨[], false⟩).messages
        = roomLoadQuery [⟨"7", "r1", "s1", "yo", 2⟩] [] "r1" ∧
      (roomLoadQuery [⟨"7", "r1", "s1", "yo", 2⟩] [] "r1").length ≤ 50 ∧
      isSortedByKey (fun x => x.created_at)
        (roomLoadQuery [⟨"7", "r1", "s1", "yo", 2⟩] [] "r1") = true ∧
      (∀ mr ∈ roomLoadQuery [⟨"7", "r1", "s1", "yo", 2⟩] [] "r1",
        ∃ row, row ∈ [(⟨"7", "r1", "s1", "yo", 2⟩ : RoomMessageRow)] ∧
          row.room_id = "r1" ∧ mr = hydrateRoomMessage [] row) ∧
      (roomRunLoad [⟨"7", "r1", "s1", "yo", 2⟩] [] "r1" (some .remoteUnavailable)
          ⟨[], false⟩).messages = (⟨[], false⟩ : RoomChatState).messages ∧
      (roomRunLoad [⟨"7", "r1", "s1", "yo", 2⟩] [] "r1" (some .remoteUnavailable)
          ⟨[], false⟩).errorToast = true ∧
      ((⟨[], false⟩ : RoomChatState).messages = [] →
        (roomRunLoad [⟨"7", "r1", "s1", "yo", 2⟩] [] "r1" (some .remoteUnavailable)
          ⟨[], false⟩).messages = [])) :=
  ⟨by decide,
   c5_load_bounds_order_and_error_behaviour [⟨"1", "hi", 1, "a", "b"⟩] "a" "b"
     ⟨[], true, false⟩ .remoteUnavailable ⟨"1", "hi", 1, "a", "b"⟩ (by decide)
     [⟨"7", "r1", "s1", "yo", 2⟩] [] "r1" ⟨[], false⟩⟩

/-- C6: a send with blank (empty or whitespace-only, i.e. trimming to empty)
text, or with no authenticated user, or — in the room composer — with no
selected room, is a no-op: the state is untouched and no insert row is
issued. -/
theorem c6_blank_or_inactive_send_issues_no_insert
    (user selectedRoom : Option String) (st : ComposerState)
    (h : user = none ∨ selectedRoom = none ∨ jsTrim st.newMessage = "")
    (user2 : Option String) (otherUserId : String) (st2 : ComposerState)
    (h2 : user2 = none ∨ jsTrim st2.newMessage = "") :
    roomSendStart user selectedRoom st = (st, none) ∧
    dmSendStart user2 otherUserId st2 = (st2, none) := by
  constructor
  · cases user with
    | none => cases selectedRoom <;> rfl
    | some u =>
      cases selectedRoom with
      | none => rfl
      | some r =>
        rcases h with h | h | h
        · exact absurd h (by simp)
        · exact absurd h (by simp)
        · simp [roomSendStart, h]
  · cases user2 with
    | none => rfl
    | some u =>
      rcases h2 with h2 | h2
      · exact absurd h2 (by simp)
      · simp [dmSendStart, h2]

/-- C6 witness: whitespace-only text in the room composer and missing user in
the direct composer. -/
theorem c6_no_insert_witness :
    ((some "u" : Option String) = none ∨ (some "r" : Option String) = none ∨
      jsTrim "   " = "") ∧
    ((none : Option String) = none ∨ jsTrim "hello" = "") ∧
    (roomSendStart (some "u") (some "r") ⟨"   ", false, false⟩
        = (⟨"   ", false, false⟩, none) ∧
     dmSendStart none "b" ⟨"hello", false, false⟩ = (⟨"hello", false, false⟩, none)) :=
  ⟨Or.inr (Or.inr (by decide)), Or.inl rfl,
   c6_blank_or_inactive_send_issues_no_insert (some "u") (some "r") _
     (Or.inr (Or.inr (by decide))) none "b" _ (Or.inl rfl)⟩

/-- C7: with a non-blank input, an authenticated user and an active
conversation, send sets the in-flight flag and issues exactly the insert row
carrying the trimmed text, the conversation key and the sender id; resolution
clears the input on success, and on failure shows an error toast while
leaving the input text unchanged. -/
theorem c7_send_inserts_trimmed_and_resolves_atomically
    (u r otherUserId : String) (st : ComposerState)
    (h : ¬ jsTrim st.newMessage = "") :
    roomSendStart (some u) (some r) st =
      ({ st with sending := true },
       some { room_id := r, sender_id := u, content := jsTrim st.newMessage }) ∧
    dmSendStart (some u) otherUserId st =
      ({ st with sending := true },
       some { sender_id := u, receiver_id := otherUserId,
              content := jsTrim st.newMessage }) ∧
    (∀ st2 : ComposerState,
      (sendResolve st2 false).newMessage = "" ∧
      (sendResolve st2 false).sending = false ∧
      (sendResolve st2 true).newMessage = st2.newMessage ∧
      (sendResolve st2 true).errorToast = true ∧
      (sendResolve st2 true).sending = false) := by
  refine ⟨?_, ?_, ?_⟩
  · simp [roomSendStart, h]
  · simp [dmSendStart, h]
  · intro st2
    exact ⟨rfl, rfl, rfl, rfl, rfl⟩

/-- C7 witness: concrete instance with text needing trimming. -/
theorem c7_send_witness :
    ¬ jsTrim "  hi  " = "" ∧
    (roomSendStart (some "u") (some "r") ⟨"  hi  ", false, false⟩
        = (⟨"  hi  ", true, false⟩, some ⟨"r", "u", "hi"⟩) ∧
     dmSendStart (some "u") "b" ⟨"  hi  ", false, false⟩
        = (⟨"  hi  ", true, false⟩, some ⟨"u", "b", "hi"⟩) ∧
     (∀ st2 : ComposerState,
       (sendResolve st2 false).newMessage = "" ∧
       (sendResolve st2 false).sending = false ∧
       (sendResolve st2 true).newMessage = st2.newMessage ∧
       (sendResolve st2 true).errorToast = true ∧
       (sendResolve st2 true).sending = false)) :=
  ⟨by decide,
   c7_send_inserts_trimmed_and_resolves_atomically "u" "r" "b"
     ⟨"  hi  ", false, false⟩ (by decide)⟩

/-- C8: while the in-flight flag is set the composer UI disables both send
paths, so an attempted send is ignored and issues no insert (room and
direct); moreover whenever an attempt does issue an insert, the resulting
state has the in-flight flag set — so at most one insert per composer is
pending. -/
theorem c8_in_flight_send_rejected :
    (∀ (user selectedRoom : Option String) (st : ComposerState),
      st.sending = true → roomAttemptSend user selectedRoom st = (st, none)) ∧
    (∀ (user : Option String) (otherUserId : String) (st : ComposerState),
      st.sending = true → dmAttemptSend user otherUserId st = (st, none)) ∧
    (∀ (user selectedRoom : Option String) (st : ComposerState),
      (roomAttemptSend user selectedRoom st).2.isSome = true →
      (roomAttemptSend user selectedRoom st).1.sending = true) := by
  refine ⟨?_, ?_, ?_⟩
  · intro user selectedRoom st h
    simp [roomAttemptSend, h]
  · intro user otherUserId st h
    simp [dmAttemptSend, h]
  · intro user selectedRoom st h
    rcases hs : st.sending with _ | _
    · simp only [roomAttemptSend, hs, Bool.false_eq_true, if_false] at h ⊢
      cases user with
      | none =>
        cases selectedRoom <;> simp [roomSendStart] at h
      | some u =>
        cases selectedRoom with
        | none => simp [roomSendStart] at h
        | some r =>
          by_cases ht : jsTrim st.newMessage == ""
          · simp [roomSendStart, ht] at h
          · simp [roomSendStart, ht]
    · simp [roomAttemptSend, hs] at h

/-- C8 witness: a send attempted while one is pending leaves the state
untouched and issues nothing. -/
theorem c8_in_flight_witness :
    (⟨"x", true, false⟩ : ComposerState).sending = true ∧
    roomAttemptSend (some "u") (some "r") ⟨"x", true, false⟩
      = (⟨"x", true, false⟩, none) :=
  ⟨rfl, c8_in_flight_send_rejected.1 (some "u") (some "r") ⟨"x", true, false⟩ rfl⟩

/-- C9: with the room insert succeeding and the membership insert failing,
`createRoom` still completes as a success: the room row is in the table, no
membership row was added, and the room appears in the next `loadRooms`
result. -/
theorem c9_member_insert_failure_not_rolled_back
    (db : RoomsDb) (u nameField descField assignedId : String) (t : Nat)
    (e : RemoteError) (hname : ¬ jsTrim nameField = "") :
    (createRoom db (some u) nameField descField assignedId t none (some e)).2
      = .success true ∧
    (createRoom db (some u) nameField descField assignedId t none (some e)).1.rooms
      = db.rooms ++ [⟨assignedId, nameField, descField, u, t⟩] ∧
    (createRoom db (some u) nameField descField assignedId t none (some e)).1.room_members
      = db.room_members ∧
    (⟨assignedId, nameField, descField, u, t⟩ : Room) ∈
      loadRoomsQuery (createRoom db (some u) nameField descField assignedId t none (some e)).1 := by
  have hcr : createRoom db (some u) nameField descField assignedId t none (some e)
      = ({ db with rooms := db.rooms ++ [⟨assignedId, nameField, descField, u, t⟩] },
         .success true) := by
    simp [createRoom, hname]
  rw [hcr]
  refine ⟨rfl, rfl, rfl, ?_⟩
  rw [loadRoomsQuery, mem_sortByKey]
  simp

/-- C9 witness: creating the room "General" while the membership insert
fails. -/
theorem c9_create_room_witness :
    ¬ jsTrim "General" = "" ∧
    ((createRoom ⟨[], []⟩ (some "u") "General" "d" "r1" 7 none
        (some .permissionDenied)).2 = .success true ∧
     (createRoom ⟨[], []⟩ (some "u") "General" "d" "r1" 7 none
        (some .permissionDenied)).1.rooms
       = ([] : List Room) ++ [⟨"r1", "General", "d", "u", 7⟩] ∧
     (createRoom ⟨[], []⟩ (some "u") "General" "d" "r1" 7 none
        (some .permissionDenied)).1.room_members = ([] : List RoomMember) ∧
     (⟨"r1", "General", "d", "u", 7⟩ : Room) ∈
       loadRoomsQuery (createRoom ⟨[], []⟩ (some "u") "General" "d" "r1" 7 none
        (some .permissionDenied)).1) :=
  ⟨by decide,
   c9_member_insert_failure_not_rolled_back ⟨[], []⟩ "u" "General" "d" "r1" 7
     .permissionDenied (by decide)⟩

/-- C10: when the room live handler's re-fetch by id yields no row, the event
is dropped silently — the page state (message sequence and error-toast flag)
is exactly unchanged. -/
theorem c10_refetch_miss_drops_event_silently
    (db : List RoomMessageRow) (pt : List Profile) (st : RoomChatState)
    (pid : String) (h : roomRefetchById db pt pid = none) :
    roomOnInsert db pt st pid = st := by
  simp [roomOnInsert, h]

/-- C10 witness: empty database, so the re-fetch returns no row. -/
theorem c10_refetch_miss_witness :
    roomRefetchById [] [] "x" = none ∧
    roomOnInsert [] [] ⟨[⟨"1", "hi", 1, "s", none⟩], false⟩ "x"
      = ⟨[⟨"1", "hi", 1, "s", none⟩], false⟩ :=
  ⟨rfl, c10_refetch_miss_drops_event_silently [] [] _ "x" rfl⟩

end Textenger
